import Mathlib

/-!
Shallow embedding of the speedtest exporter (src/exporter.py).

The program runs an external speedtest binary, parses its JSON output,
caches the most recent successful result, and publishes six gauges.
We model JSON values as an inductive type, the relevant Python dict,
membership and conversion operations as Except-valued functions whose
error constructors mirror the Python exceptions they raise, the
subprocess outcome as an inductive, and the module-level cache as an
explicit state threaded through get_metrics.
-/

namespace Speedtest

/-- A JSON value, as produced by json.loads: an object is an association
list of string keys (parse output has distinct keys). -/
inductive JsonValue where
  | null : JsonValue
  | bool (b : Bool) : JsonValue
  | num (q : ℚ) : JsonValue
  | str (s : String) : JsonValue
  | arr (xs : List JsonValue) : JsonValue
  | obj (fields : List (String × JsonValue)) : JsonValue

/-- The Python exceptions that the embedded operations can raise and
that are NOT SpeedtestError (exporter.py only catches SpeedtestError,
json.JSONDecodeError and the subprocess exceptions). -/
inductive PyError where
  | typeError : PyError
  | keyError (k : String) : PyError
  | attributeError : PyError
  | valueError : PyError
deriving DecidableEq, Repr

/-- Substring test on strings (Python s1 in s2 for strings). -/
def strContains (haystack needle : String) : Bool :=
  (List.range (haystack.length + 1)).any (fun i => needle.isPrefixOf (haystack.drop i))

/-- Python membership test key in data on a json.loads value: key lookup
for dicts, element equality for lists, substring for strings, and a
TypeError for the non-container types (int, float, bool, None). -/
def pyContains (key : String) : JsonValue → Except PyError Bool
  | .obj fields => .ok (fields.lookup key).isSome
  | .arr xs => .ok (xs.any (fun x => match x with | .str s => s == key | _ => false))
  | .str s => .ok (strContains s key)
  | _ => .error .typeError

/-- Python subscript data[key] with a string key: dict lookup (KeyError
when absent); lists and strings reject string indices and the scalar
types are not subscriptable (TypeError). -/
def pyGetItem (v : JsonValue) (key : String) : Except PyError JsonValue :=
  match v with
  | .obj fields =>
    match fields.lookup key with
    | some x => .ok x
    | none => .error (.keyError key)
  | _ => .error .typeError

/-- Python data.get(key): defined only on dicts (None, i.e. null, when
the key is absent); every other type has no .get attribute. -/
def pyGetOpt (v : JsonValue) (key : String) : Except PyError JsonValue :=
  match v with
  | .obj fields => .ok ((fields.lookup key).getD .null)
  | _ => .error .attributeError

/-- Python int(x) on a json.loads value: numbers truncate toward zero,
booleans coerce; other types fail.  (Numeric strings are not modelled:
the tool's schema emits numbers and no claim involves string fields.) -/
def pyInt : JsonValue → Except PyError Int
  | .num q => .ok (q.num.tdiv (q.den : Int))
  | .bool b => .ok (if b then 1 else 0)
  | .str _ => .error .valueError
  | _ => .error .typeError

/-- Python float(x) on a json.loads value, same conventions as pyInt. -/
def pyFloat : JsonValue → Except PyError ℚ
  | .num q => .ok q
  | .bool b => .ok (if b then 1 else 0)
  | .str _ => .error .valueError
  | _ => .error .typeError

/-- bytes_to_bits from exporter.py: float(bytes_per_sec) * 8. -/
def bytes_to_bits (bytes_per_sec : ℚ) : ℚ :=
  bytes_per_sec * 8

/-- Floor of a rational as an integer. -/
def ratFloor (q : ℚ) : Int :=
  q.num.fdiv (q.den : Int)

/-- Rounding to the nearest integer with ties to even, as Python round. -/
def roundHalfEven (q : ℚ) : Int :=
  let f := ratFloor q
  let r := q - (f : ℚ)
  if r < 1 / 2 then f
  else if 1 / 2 < r then f + 1
  else if f % 2 = 0 then f else f + 1

/-- Python round(y, 2): round to two decimal places, ties to even. -/
def round2 (y : ℚ) : ℚ :=
  (roundHalfEven (y * 100) : ℚ) / 100

/-- bits_to_megabits from exporter.py: round(float(bits_per_sec) * 1e-6, 2). -/
def bits_to_megabits (bits_per_sec : ℚ) : ℚ :=
  round2 (bits_per_sec * (1 / 1000000))

/-- The speedtest metrics dictionary built by run_speedtest on success
(keys server_id, jitter, ping, download, upload, up). -/
structure Metrics where
  server_id : Int
  jitter : ℚ
  ping : ℚ
  download : ℚ
  upload : ℚ
  up : ℚ
deriving DecidableEq, Repr

/-- The distinct SpeedtestError raise sites of run_speedtest, with the
payload each message interpolates. -/
inductive SpeedtestErr where
  | timeout : SpeedtestErr
  | commandFailed : SpeedtestErr
  | invalidJson : SpeedtestErr
  | reported (errValue : JsonValue) : SpeedtestErr
  | unexpectedType (t : JsonValue) : SpeedtestErr

/-- How run_speedtest can fail: a SpeedtestError (caught by get_metrics)
or some other Python exception escaping it (not caught). -/
inductive RunError where
  | typed (e : SpeedtestErr) : RunError
  | escaped (e : PyError) : RunError

/-- The captured standard output of a failed subprocess: empty (falsy),
non-empty but not valid JSON, or parsed to a JSON value. -/
inductive Stdout where
  | empty : Stdout
  | invalid : Stdout
  | parsed (v : JsonValue) : Stdout

/-- Outcome of the subprocess.run call inside run_speedtest: timeout
(TimeoutExpired), non-zero exit (CalledProcessError, with its captured
stdout), or zero exit with stdout either unparseable (none) or parsed. -/
inductive ProcOutcome where
  | timeout : ProcOutcome
  | failed (stdout : Stdout) : ProcOutcome
  | completed (parse : Option JsonValue) : ProcOutcome

/-- Python data.get("type") != "result" is false exactly when the value
is the string "result". -/
def isResultMarker : JsonValue → Bool
  | .str s => s == "result"
  | _ => false

/-- The metrics-dictionary construction of run_speedtest, evaluating the
entries in source order so the first failing subscript or conversion
determines the escaping exception. -/
def extractMetrics (data : JsonValue) : Except PyError Metrics := do
  let server ← pyGetItem data "server"
  let idv ← pyGetItem server "id"
  let server_id ← pyInt idv
  let ping ← pyGetItem data "ping"
  let jitterv ← pyGetItem ping "jitter"
  let jitter ← pyFloat jitterv
  let latencyv ← pyGetItem ping "latency"
  let latency ← pyFloat latencyv
  let download ← pyGetItem data "download"
  let dbw ← pyGetItem download "bandwidth"
  let dq ← pyFloat dbw
  let upload ← pyGetItem data "upload"
  let ubw ← pyGetItem upload "bandwidth"
  let uq ← pyFloat ubw
  pure { server_id := server_id, jitter := jitter, ping := latency,
         download := bytes_to_bits dq, upload := bytes_to_bits uq, up := 1 }

/-- run_speedtest from exporter.py, as a function of the subprocess
outcome.  Zero exit: parse stdout (JSONDecodeError becomes the invalid
JSON SpeedtestError), report an error payload, reject an unexpected
type, otherwise extract the metrics; exceptions other than
SpeedtestError escape.  Timeout and non-zero exit map to their
SpeedtestError raise sites, with a parsed error object surfaced from
the failed process's stdout (the inner try only catches
JSONDecodeError, so membership or subscript errors there escape). -/
def run_speedtest (outcome : ProcOutcome) : Except RunError Metrics :=
  match outcome with
  | .timeout => .error (.typed .timeout)
  | .failed stdout =>
    match stdout with
    | .empty => .error (.typed .commandFailed)
    | .invalid => .error (.typed .commandFailed)
    | .parsed data =>
      match pyContains "error" data with
      | .error e => .error (.escaped e)
      | .ok true =>
        match pyGetItem data "error" with
        | .error e => .error (.escaped e)
        | .ok v => .error (.typed (.reported v))
      | .ok false => .error (.typed .commandFailed)
  | .completed parse =>
    match parse with
    | none => .error (.typed .invalidJson)
    | some data =>
      match pyContains "error" data with
      | .error e => .error (.escaped e)
      | .ok true =>
        match pyGetItem data "error" with
        | .error e => .error (.escaped e)
        | .ok v => .error (.typed (.reported v))
      | .ok false =>
        match pyGetOpt data "type" with
        | .error e => .error (.escaped e)
        | .ok t =>
          if isResultMarker t then
            match extractMetrics data with
            | .error e => .error (.escaped e)
            | .ok m => .ok m
          else .error (.typed (.unexpectedType t))

/-- The environment-driven configuration of exporter.py: CACHE_DURATION,
SERVER_ID and TIMEOUT (the server id and timeout only shape the
subprocess invocation, which the ProcOutcome already abstracts). -/
structure Config where
  cache_duration : Int
  server_id : Option String
  timeout : Int
deriving DecidableEq, Repr

/-- The module-level cache of exporter.py: last_test_time (a timestamp
in seconds; datetime.min is a value no smaller than which every clock
reading is) and cached_metrics. -/
structure CacheState where
  last_test_time : ℚ
  cached_metrics : Option Metrics
deriving DecidableEq, Repr

/-- The dictionary returned by get_metrics when run_speedtest raises a
SpeedtestError: every field zero, up = 0. -/
def zeroMetrics : Metrics :=
  { server_id := 0, jitter := 0, ping := 0, download := 0, upload := 0, up := 0 }

/-- The cache_valid test of get_metrics: a positive cache duration, a
present cached entry, and an age strictly below the duration. -/
def cache_valid (cfg : Config) (st : CacheState) (now : ℚ) : Bool :=
  decide (0 < cfg.cache_duration) && st.cached_metrics.isSome &&
    decide (now - st.last_test_time < (cfg.cache_duration : ℚ))

/-- What one call to get_metrics does: whether it invoked the external
tool, the value it returns (or, as an error, the Python exception
escaping it), and the cache state it leaves behind. -/
structure GetMetricsResult where
  invoked : Bool
  result : Except PyError Metrics
  state : CacheState

/-- get_metrics from exporter.py: serve the cache when valid; otherwise
invoke run_speedtest, storing the result and the call's entry time on
success, absorbing a SpeedtestError into zeroMetrics without touching
the cache, and letting any other exception escape (also without
touching the cache, since the assignments follow the call). -/
def get_metrics (cfg : Config) (st : CacheState) (now : ℚ) (outcome : ProcOutcome) :
    GetMetricsResult :=
  if cache_valid cfg st now then
    { invoked := false, result := .ok (st.cached_metrics.getD zeroMetrics), state := st }
  else
    match run_speedtest outcome with
    | .ok m =>
      { invoked := true, result := .ok m,
        state := { last_test_time := now, cached_metrics := some m } }
    | .error (.typed _) => { invoked := true, result := .ok zeroMetrics, state := st }
    | .error (.escaped e) => { invoked := true, result := .error e, state := st }

/-- The six prometheus gauges of exporter.py, by current value. -/
structure Gauges where
  server_id : ℚ
  jitter : ℚ
  ping : ℚ
  download : ℚ
  upload : ℚ
  up : ℚ
deriving DecidableEq, Repr

/-- update_prometheus_metrics from exporter.py: set each gauge from the
corresponding dictionary entry, no rounding or further conversion. -/
def update_prometheus_metrics (m : Metrics) : Gauges :=
  { server_id := (m.server_id : ℚ), jitter := m.jitter, ping := m.ping,
    download := m.download, upload := m.upload, up := m.up }

/-- The sample result payload of the specification's end-to-end test. -/
def samplePayload : JsonValue :=
  .obj [("type", .str "result"),
        ("server", .obj [("id", .num 12345)]),
        ("ping", .obj [("jitter", .num 1.2), ("latency", .num 10.5)]),
        ("download", .obj [("bandwidth", .num 12500000)]),
        ("upload", .obj [("bandwidth", .num 1250000)])]

/-- The metrics run_speedtest extracts from samplePayload. -/
def sampleMetrics : Metrics :=
  { server_id := 12345, jitter := 1.2, ping := 10.5,
    download := 100000000, upload := 10000000, up := 1 }

/-- A JSON value int() and float() accept: a number or a boolean. -/
def numericJson : JsonValue → Bool
  | .num _ => true
  | .bool _ => true
  | _ => false

/-- The payload has field outer.inner and it is numeric. -/
def numericField (fields : List (String × JsonValue)) (outer inner : String) : Bool :=
  match fields.lookup outer with
  | some (.obj innerFields) =>
    match innerFields.lookup inner with
    | some v => numericJson v
    | _ => false
  | _ => false

/-- The payload object carries every field the metric extraction reads,
with a numeric value. -/
def resultShaped (fields : List (String × JsonValue)) : Bool :=
  numericField fields "server" "id" && numericField fields "ping" "jitter" &&
    numericField fields "ping" "latency" && numericField fields "download" "bandwidth" &&
    numericField fields "upload" "bandwidth"

/-- A zero-exit payload on which run_speedtest raises at most a
SpeedtestError: a JSON object that reports an error, or has a type other
than the result marker, or is shaped like a full result. -/
def benignPayload : JsonValue → Bool
  | .obj fields =>
    (fields.lookup "error").isSome ||
      !(isResultMarker ((fields.lookup "type").getD .null)) || resultShaped fields
  | _ => false

/-- A subprocess outcome on which run_speedtest raises at most a
SpeedtestError (so get_metrics absorbs the failure): a timeout; a
non-zero exit whose captured output is empty, unparseable, an object,
a string without the substring error, or an array without the string
error as an element; or a zero-exit stdout that is unparseable or a
benign payload. -/
def benignOutcome : ProcOutcome → Bool
  | .timeout => true
  | .failed .empty => true
  | .failed .invalid => true
  | .failed (.parsed (.obj _)) => true
  | .failed (.parsed (.str s)) => !(strContains s "error")
  | .failed (.parsed (.arr xs)) =>
    !(xs.any (fun x => match x with | .str t => t == "error" | _ => false))
  | .failed (.parsed _) => false
  | .completed none => true
  | .completed (some data) => benignPayload data

/-- The successive cache states along a sequence of get_metrics calls,
each given by its clock reading and subprocess outcome; the list starts
with the initial state. -/
def traceStates (cfg : Config) : CacheState → List (ℚ × ProcOutcome) → List CacheState
  | st, [] => [st]
  | st, (t, o) :: rest => st :: traceStates cfg (get_metrics cfg st t o).state rest

end Speedtest

attribute [local semireducible] Rat.mul Rat.add Rat.sub Rat.inv Rat.ofScientific

namespace Speedtest

/-- One get_metrics call leaves the stored timestamp alone or sets it to
the clock reading taken at the start of the call. -/
theorem get_metrics_state_time (cfg : Config) (st : CacheState) (now : ℚ)
    (o : ProcOutcome) :
    (get_metrics cfg st now o).state.last_test_time = st.last_test_time ∨
      (get_metrics cfg st now o).state.last_test_time = now := by
  unfold get_metrics
  by_cases hv : cache_valid cfg st now = true
  · rw [if_pos hv]
    exact .inl rfl
  · rw [if_neg hv]
    rcases hr : run_speedtest o with e | m
    · rcases e with e | e
      · exact .inl rfl
      · exact .inl rfl
    · exact .inr rfl

/-- The state list of a call sequence begins with the starting state. -/
theorem traceStates_shape (cfg : Config) (st : CacheState)
    (l : List (ℚ × ProcOutcome)) :
    ∃ tl, traceStates cfg st l = st :: tl := by
  cases l with
  | nil => exact ⟨[], rfl⟩
  | cons p rest =>
    cases p with
    | mk t o => exact ⟨_, rfl⟩

/-- int() succeeds on every numeric JSON value. -/
theorem pyInt_ok (v : JsonValue) (h : numericJson v = true) : ∃ n, pyInt v = .ok n := by
  cases v <;> first | exact ⟨_, rfl⟩ | simp [numericJson] at h

/-- float() succeeds on every numeric JSON value. -/
theorem pyFloat_ok (v : JsonValue) (h : numericJson v = true) : ∃ q, pyFloat v = .ok q := by
  cases v <;> first | exact ⟨_, rfl⟩ | simp [numericJson] at h

/-- Unfolding of a successful numericField test. -/
theorem numericField_spec (fields : List (String × JsonValue)) (outer inner : String)
    (h : numericField fields outer inner = true) :
    ∃ innerFields v, fields.lookup outer = some (.obj innerFields) ∧
      innerFields.lookup inner = some v ∧ numericJson v = true := by
  unfold numericField at h
  split at h
  · next innerFields hl =>
    split at h
    · next v hv => exact ⟨innerFields, v, hl, hv, h⟩
    · exact absurd h (by simp)
  · exact absurd h (by simp)

/-- On a payload carrying every expected field with a numeric value, the
metric extraction raises nothing. -/
theorem extractMetrics_ok (fields : List (String × JsonValue))
    (h : resultShaped fields = true) :
    ∃ m, extractMetrics (.obj fields) = .ok m := by
  rw [resultShaped] at h
  simp only [Bool.and_eq_true] at h
  obtain ⟨⟨⟨⟨hs, hj⟩, hl⟩, hd⟩, hu⟩ := h
  obtain ⟨sf, sv, hs1, hs2, hs3⟩ := numericField_spec _ _ _ hs
  obtain ⟨pf, jv, hp1, hp2, hp3⟩ := numericField_spec _ _ _ hj
  obtain ⟨pf2, lv, hl1, hl2, hl3⟩ := numericField_spec _ _ _ hl
  obtain ⟨df, dv, hd1, hd2, hd3⟩ := numericField_spec _ _ _ hd
  obtain ⟨uf, uv, hu1, hu2, hu3⟩ := numericField_spec _ _ _ hu
  rw [hp1] at hl1
  injection hl1 with hl1a
  injection hl1a with hl1b
  subst hl1b
  obtain ⟨sid, hsid⟩ := pyInt_ok _ hs3
  obtain ⟨jq, hjq⟩ := pyFloat_ok _ hp3
  obtain ⟨lq, hlq⟩ := pyFloat_ok _ hl3
  obtain ⟨dq, hdq⟩ := pyFloat_ok _ hd3
  obtain ⟨uq, huq⟩ := pyFloat_ok _ hu3
  refine ⟨{ server_id := sid, jitter := jq, ping := lq,
            download := bytes_to_bits dq, upload := bytes_to_bits uq, up := 1 }, ?_⟩
  simp [extractMetrics, pyGetItem, Bind.bind, Except.bind, Pure.pure, Except.pure,
        hs1, hs2, hp1, hp2, hl2, hd1, hd2, hu1, hu2, hsid, hjq, hlq, hdq, huq]

/-- On a benign subprocess outcome run_speedtest either succeeds or
raises a SpeedtestError, never another exception. -/
theorem run_speedtest_benign (o : ProcOutcome) (h : benignOutcome o = true) :
    (∃ m, run_speedtest o = .ok m) ∨ ∃ e, run_speedtest o = .error (.typed e) := by
  cases o with
  | timeout => exact .inr ⟨.timeout, rfl⟩
  | failed s =>
    cases s with
    | empty => exact .inr ⟨.commandFailed, rfl⟩
    | invalid => exact .inr ⟨.commandFailed, rfl⟩
    | parsed data =>
      rcases data with _ | b | q | s | xs | fields
      · simp [benignOutcome] at h
      · simp [benignOutcome] at h
      · simp [benignOutcome] at h
      · simp only [benignOutcome, Bool.not_eq_true'] at h
        exact .inr ⟨.commandFailed, by simp [run_speedtest, pyContains, h]⟩
      · simp only [benignOutcome, Bool.not_eq_true'] at h
        exact .inr ⟨.commandFailed, by simp [run_speedtest, pyContains, h]⟩
      · rcases hl : fields.lookup "error" with _ | v
        · exact .inr ⟨.commandFailed, by simp [run_speedtest, pyContains, hl]⟩
        · exact .inr ⟨.reported v, by simp [run_speedtest, pyContains, pyGetItem, hl]⟩
  | completed p =>
    cases p with
    | none => exact .inr ⟨.invalidJson, rfl⟩
    | some data =>
      rcases data with _ | b | q | s | xs | fields
      · simp [benignOutcome, benignPayload] at h
      · simp [benignOutcome, benignPayload] at h
      · simp [benignOutcome, benignPayload] at h
      · simp [benignOutcome, benignPayload] at h
      · simp [benignOutcome, benignPayload] at h
      · rcases hl : fields.lookup "error" with _ | v
        · cases hm : isResultMarker ((fields.lookup "type").getD .null) with
          | false =>
            exact .inr ⟨.unexpectedType ((fields.lookup "type").getD .null),
              by simp [run_speedtest, pyContains, pyGetOpt, hl, hm]⟩
          | true =>
            have hrs : resultShaped fields = true := by
              simp [benignOutcome, benignPayload, hl, hm] at h
              exact h
            obtain ⟨m, hm2⟩ := extractMetrics_ok fields hrs
            exact .inl ⟨m, by simp [run_speedtest, pyContains, pyGetOpt, hl, hm, hm2]⟩
        · exact .inr ⟨.reported v, by simp [run_speedtest, pyContains, pyGetItem, hl]⟩

/-- C1: with a cache duration D greater than zero, after a call that
invoked the tool successfully at time t1, a call strictly less than D
seconds later serves the identical cached result without invoking the
tool and leaves the cache alone, while a call at or after D seconds
triggers a new invocation. -/
theorem C1_cache_window (cfg : Config) (st : CacheState) (t1 t2 : ℚ)
    (o1 o2 : ProcOutcome) (m : Metrics)
    (hD : 0 < cfg.cache_duration)
    (hmiss : cache_valid cfg st t1 = false)
    (hsucc : run_speedtest o1 = .ok m) :
    (get_metrics cfg st t1 o1).state = ⟨t1, some m⟩ ∧
    (t2 - t1 < (cfg.cache_duration : ℚ) →
      get_metrics cfg (get_metrics cfg st t1 o1).state t2 o2 =
        ⟨false, .ok m, ⟨t1, some m⟩⟩) ∧
    ((cfg.cache_duration : ℚ) ≤ t2 - t1 →
      (get_metrics cfg (get_metrics cfg st t1 o1).state t2 o2).invoked = true) := by
  have h1 : get_metrics cfg st t1 o1 = ⟨true, .ok m, ⟨t1, some m⟩⟩ := by
    simp [get_metrics, hmiss, hsucc]
  refine ⟨by rw [h1], fun hlt => ?_, fun hge => ?_⟩
  · rw [h1]
    have hv : cache_valid cfg ⟨t1, some m⟩ t2 = true := by
      simp [cache_valid, hD, hlt]
    simp [get_metrics, hv]
  · rw [h1]
    have hv : cache_valid cfg ⟨t1, some m⟩ t2 = false := by
      simp [cache_valid, not_lt.mpr hge]
    rcases hr : run_speedtest o2 with e | m2
    · rcases e with e | e <;> simp [get_metrics, hv, hr]
    · simp [get_metrics, hv, hr]

/-- C1 witness at a concrete configuration, state, clock pair and
successful outcome. -/
theorem C1_cache_window_witness :
    (get_metrics ⟨60, none, 90⟩ ⟨0, none⟩ 5 (.completed (some samplePayload))).state =
      ⟨5, some sampleMetrics⟩ ∧
    ((10 : ℚ) - 5 < ((60 : Int) : ℚ) →
      get_metrics ⟨60, none, 90⟩
          (get_metrics ⟨60, none, 90⟩ ⟨0, none⟩ 5 (.completed (some samplePayload))).state
          10 .timeout =
        ⟨false, .ok sampleMetrics, ⟨5, some sampleMetrics⟩⟩) ∧
    (((60 : Int) : ℚ) ≤ (10 : ℚ) - 5 →
      (get_metrics ⟨60, none, 90⟩
          (get_metrics ⟨60, none, 90⟩ ⟨0, none⟩ 5 (.completed (some samplePayload))).state
          10 .timeout).invoked = true) :=
  C1_cache_window ⟨60, none, 90⟩ ⟨0, none⟩ 5 10 (.completed (some samplePayload))
    .timeout sampleMetrics (by decide) (by decide) rfl

/-- C2: when the call reaches the invoker and the invoker fails with a
SpeedtestError, the cache state is left exactly as it was and the call
returns the zero-valued result with success 0. -/
theorem C2_failure_preserves_cache (cfg : Config) (st : CacheState) (now : ℚ)
    (o : ProcOutcome) (e : SpeedtestErr)
    (hmiss : cache_valid cfg st now = false)
    (hfail : run_speedtest o = .error (.typed e)) :
    get_metrics cfg st now o = ⟨true, .ok zeroMetrics, st⟩ := by
  simp [get_metrics, hmiss, hfail]

/-- C2 witness: a timeout against a populated cache leaves it alone. -/
theorem C2_failure_preserves_cache_witness :
    get_metrics ⟨0, none, 90⟩ ⟨3, some sampleMetrics⟩ 4 .timeout =
      ⟨true, .ok zeroMetrics, ⟨3, some sampleMetrics⟩⟩ :=
  C2_failure_preserves_cache ⟨0, none, 90⟩ ⟨3, some sampleMetrics⟩ 4 .timeout
    .timeout (by decide) rfl

/-- C4: with cache duration 0 every call invokes the tool, and what it
returns is determined by that fresh invocation alone, never by a
previously cached value. -/
theorem C4_zero_duration (cfg : Config) (st : CacheState) (now : ℚ) (o : ProcOutcome)
    (h : cfg.cache_duration = 0) :
    (get_metrics cfg st now o).invoked = true ∧
    (get_metrics cfg st now o).result =
      (match run_speedtest o with
       | .ok m => .ok m
       | .error (.typed _) => .ok zeroMetrics
       | .error (.escaped e) => .error e) := by
  have hm : cache_valid cfg st now = false := by
    simp [cache_valid, h]
  rcases hr : run_speedtest o with e | m
  · rcases e with e | e <;> simp [get_metrics, hm, hr]
  · simp [get_metrics, hm, hr]

/-- C4 witness: cache duration 0 with a fresh cached entry still
re-invokes. -/
theorem C4_zero_duration_witness :
    (get_metrics ⟨0, none, 90⟩ ⟨3, some sampleMetrics⟩ 3 .timeout).invoked = true ∧
    (get_metrics ⟨0, none, 90⟩ ⟨3, some sampleMetrics⟩ 3 .timeout).result =
      (match run_speedtest .timeout with
       | .ok m => .ok m
       | .error (.typed _) => .ok zeroMetrics
       | .error (.escaped e) => .error e) :=
  C4_zero_duration ⟨0, none, 90⟩ ⟨3, some sampleMetrics⟩ 3 .timeout rfl

/-- C5: on the specification's sample payload the invocation succeeds
with server id 12345, jitter 1.2, ping 10.5, download 100000000 bits
per second, upload 10000000 bits per second, and the published gauges
carry exactly those six values with success 1. -/
theorem C5_end_to_end :
    run_speedtest (.completed (some samplePayload)) = .ok sampleMetrics ∧
    update_prometheus_metrics sampleMetrics =
      { server_id := 12345, jitter := 1.2, ping := 10.5,
        download := 100000000, upload := 10000000, up := 1 } :=
  ⟨rfl, by decide⟩

/-- C3 counterexample: on exit status zero with the JSON object payload
that has type result but no server field, the metric extraction raises
KeyError, which get_metrics does not catch, so this call raises rather
than returning a success 0 result. -/
theorem C3_counterexample :
    (get_metrics ⟨0, none, 90⟩ ⟨0, none⟩ 0
        (.completed (some (.obj [("type", .str "result")])))).result =
      .error (.keyError "server") ∧
    ∀ m : Metrics,
      (get_metrics ⟨0, none, 90⟩ ⟨0, none⟩ 0
          (.completed (some (.obj [("type", .str "result")])))).result ≠ .ok m := by
  refine ⟨rfl, fun m h => ?_⟩
  have h2 : (Except.error (PyError.keyError "server") : Except PyError Metrics) =
      .ok m := h
  exact Except.noConfusion h2

/-- C3 amended: on every outcome whose failure is one of the typed
SpeedtestError kinds (timeout; non-zero exit with empty or unparseable
output, a JSON object, an error-free string or an error-free array;
unparseable zero-exit output; or a zero-exit JSON object that reports
an error, has a non-result type, or carries all expected numeric result
fields), get_metrics never raises, and whenever such a call invoked the
tool and the invocation failed with a SpeedtestError, it returns the
zero result, whose success field is 0. -/
theorem C3_amended_no_raise (cfg : Config) (st : CacheState) (now : ℚ)
    (o : ProcOutcome) (h : benignOutcome o = true) :
    (∃ m, (get_metrics cfg st now o).result = .ok m) ∧
    ((get_metrics cfg st now o).invoked = true →
      ∀ e, run_speedtest o = .error (.typed e) →
        (get_metrics cfg st now o).result = .ok zeroMetrics ∧
          zeroMetrics.up = 0) := by
  constructor
  · by_cases hv : cache_valid cfg st now = true
    · exact ⟨st.cached_metrics.getD zeroMetrics, by simp [get_metrics, hv]⟩
    · simp only [Bool.not_eq_true] at hv
      rcases run_speedtest_benign o h with ⟨m, hm⟩ | ⟨e, he⟩
      · exact ⟨m, by simp [get_metrics, hv, hm]⟩
      · exact ⟨zeroMetrics, by simp [get_metrics, hv, he]⟩
  · intro hinv e he
    by_cases hv : cache_valid cfg st now = true
    · simp [get_metrics, hv] at hinv
    · simp only [Bool.not_eq_true] at hv
      exact ⟨by simp [get_metrics, hv, he], rfl⟩

/-- C3 amended witness at a concrete benign failing outcome: a non-zero
exit whose captured output parses to an empty JSON array. -/
theorem C3_amended_no_raise_witness :
    (∃ m, (get_metrics ⟨0, none, 90⟩ ⟨0, none⟩ 0
        (.failed (.parsed (.arr [])))).result = .ok m) ∧
    ((get_metrics ⟨0, none, 90⟩ ⟨0, none⟩ 0
        (.failed (.parsed (.arr [])))).invoked = true →
      ∀ e, run_speedtest (.failed (.parsed (.arr []))) = .error (.typed e) →
        (get_metrics ⟨0, none, 90⟩ ⟨0, none⟩ 0
            (.failed (.parsed (.arr [])))).result = .ok zeroMetrics ∧
          zeroMetrics.up = 0) :=
  C3_amended_no_raise ⟨0, none, 90⟩ ⟨0, none⟩ 0 (.failed (.parsed (.arr [])))
    (by decide)

/-- C6: a zero-exit JSON object payload with an error key yields the
reported-failure error carrying the payload's error value; one without
an error key whose type field is not the result marker yields the
unexpected-type error carrying that type value; in neither case is a
successful result produced. -/
theorem C6_error_key_and_type (fields : List (String × JsonValue)) :
    (∀ v, fields.lookup "error" = some v →
      run_speedtest (.completed (some (.obj fields))) =
        .error (.typed (.reported v))) ∧
    (fields.lookup "error" = none →
      isResultMarker ((fields.lookup "type").getD .null) = false →
      run_speedtest (.completed (some (.obj fields))) =
        .error (.typed (.unexpectedType ((fields.lookup "type").getD .null)))) ∧
    (∀ m : Metrics, ((fields.lookup "error").isSome = true ∨
        isResultMarker ((fields.lookup "type").getD .null) = false) →
      run_speedtest (.completed (some (.obj fields))) ≠ .ok m) := by
  refine ⟨fun v hv => ?_, fun hn hm => ?_, fun m hor => ?_⟩
  · simp [run_speedtest, pyContains, pyGetItem, hv]
  · simp [run_speedtest, pyContains, pyGetOpt, hn, hm]
  · rcases hl : fields.lookup "error" with _ | v
    · rcases hor with hs | hm
      · rw [hl] at hs
        simp at hs
      · simp [run_speedtest, pyContains, pyGetOpt, hl, hm]
    · simp [run_speedtest, pyContains, pyGetItem, hl]

/-- C6 witness: a payload reporting an error with exit status zero. -/
theorem C6_error_key_and_type_witness :
    run_speedtest (.completed (some (.obj [("error", JsonValue.str "boom")]))) =
      .error (.typed (.reported (.str "boom"))) :=
  (C6_error_key_and_type [("error", JsonValue.str "boom")]).1 (.str "boom") rfl

/-- C7 counterexample: a non-zero exit whose captured output parses to
the JSON number 42 makes the membership test raise TypeError, which
escapes, so the invocation yields neither the generic process-failed
error nor any other SpeedtestError. -/
theorem C7_counterexample :
    run_speedtest (.failed (.parsed (.num 42))) = .error (.escaped .typeError) ∧
    ∀ e : SpeedtestErr,
      run_speedtest (.failed (.parsed (.num 42))) ≠ .error (.typed e) := by
  refine ⟨rfl, fun e h => ?_⟩
  have h2 : (Except.error (RunError.escaped PyError.typeError) :
      Except RunError Metrics) = .error (.typed e) := h
  exact RunError.noConfusion (Except.error.inj h2)

/-- C7 amended: exceeding the timeout yields the timeout error.  A
non-zero exit yields the generic process-failed error when the
captured output is empty, is not valid JSON, or parses to a JSON
object without an error key, a JSON string not containing the
substring error, or a JSON array not containing the string error as an
element; a JSON object with an error key surfaces that value instead
of the generic error.  The remaining parses (a number, boolean or
null, where the membership test raises, or a string or array with an
error member, where the subscript raises) make a TypeError escape, as
the counterexample shows. -/
theorem C7_amended_process_errors (fields : List (String × JsonValue))
    (s : String) (xs : List JsonValue) (q : ℚ) (b : Bool) :
    run_speedtest .timeout = .error (.typed .timeout) ∧
    run_speedtest (.failed .empty) = .error (.typed .commandFailed) ∧
    run_speedtest (.failed .invalid) = .error (.typed .commandFailed) ∧
    (fields.lookup "error" = none →
      run_speedtest (.failed (.parsed (.obj fields))) =
        .error (.typed .commandFailed)) ∧
    (∀ v, fields.lookup "error" = some v →
      run_speedtest (.failed (.parsed (.obj fields))) =
        .error (.typed (.reported v))) ∧
    (strContains s "error" = false →
      run_speedtest (.failed (.parsed (.str s))) =
        .error (.typed .commandFailed)) ∧
    (strContains s "error" = true →
      run_speedtest (.failed (.parsed (.str s))) =
        .error (.escaped .typeError)) ∧
    (xs.any (fun x => match x with | .str t => t == "error" | _ => false) = false →
      run_speedtest (.failed (.parsed (.arr xs))) =
        .error (.typed .commandFailed)) ∧
    (xs.any (fun x => match x with | .str t => t == "error" | _ => false) = true →
      run_speedtest (.failed (.parsed (.arr xs))) =
        .error (.escaped .typeError)) ∧
    run_speedtest (.failed (.parsed (.num q))) = .error (.escaped .typeError) ∧
    run_speedtest (.failed (.parsed (.bool b))) = .error (.escaped .typeError) ∧
    run_speedtest (.failed (.parsed .null)) = .error (.escaped .typeError) := by
  refine ⟨rfl, rfl, rfl, fun hn => ?_, fun v hv => ?_, fun hs => ?_, fun hs => ?_,
    fun ha => ?_, fun ha => ?_, rfl, rfl, rfl⟩
  · simp [run_speedtest, pyContains, hn]
  · simp [run_speedtest, pyContains, pyGetItem, hv]
  · simp [run_speedtest, pyContains, hs]
  · simp [run_speedtest, pyContains, pyGetItem, hs]
  · simp [run_speedtest, pyContains, ha]
  · simp [run_speedtest, pyContains, pyGetItem, ha]

/-- C7 amended witness: a failed process reporting an error payload. -/
theorem C7_amended_process_errors_witness :
    run_speedtest (.failed (.parsed
        (.obj [("error", JsonValue.str "No servers defined")]))) =
      .error (.typed (.reported (.str "No servers defined"))) :=
  (C7_amended_process_errors [("error", JsonValue.str "No servers defined")]
      "" [] 0 false).2.2.2.2.1
    (.str "No servers defined") rfl

/-- C10: when a zero-exit JSON object payload carries both an error key
and a type different from the result marker, the error key wins: the
invocation yields the reported failure with the payload's error value,
not the unexpected-type error. -/
theorem C10_error_precedence (fields : List (String × JsonValue)) (v t : JsonValue)
    (he : fields.lookup "error" = some v)
    (ht : fields.lookup "type" = some t)
    (hmark : isResultMarker t = false) :
    run_speedtest (.completed (some (.obj fields))) =
      .error (.typed (.reported v)) ∧
    ∀ u, run_speedtest (.completed (some (.obj fields))) ≠
      .error (.typed (.unexpectedType u)) := by
  have h1 : run_speedtest (.completed (some (.obj fields))) =
      .error (.typed (.reported v)) := by
    simp [run_speedtest, pyContains, pyGetItem, he]
  refine ⟨h1, fun u hu => ?_⟩
  rw [h1] at hu
  injection hu with h2
  injection h2 with h3
  exact SpeedtestErr.noConfusion h3

/-- C10 witness: error key and a log type together. -/
theorem C10_error_precedence_witness :
    run_speedtest (.completed (some (.obj
        [("error", JsonValue.str "No servers found"), ("type", JsonValue.str "log")]))) =
      .error (.typed (.reported (.str "No servers found"))) ∧
    ∀ u, run_speedtest (.completed (some (.obj
        [("error", JsonValue.str "No servers found"), ("type", JsonValue.str "log")]))) ≠
      .error (.typed (.unexpectedType u)) :=
  C10_error_precedence
    [("error", JsonValue.str "No servers found"), ("type", JsonValue.str "log")]
    (.str "No servers found") (.str "log") rfl rfl rfl

/-- C9: along any sequence of get_metrics calls whose clock readings
are non-decreasing (and start no earlier than the initially stored
timestamp), the stored captured-at timestamp is monotonically
non-decreasing from each state to the next. -/
theorem C9_captured_at_monotone (cfg : Config) (st : CacheState)
    (trace : List (ℚ × ProcOutcome))
    (hchain : List.Chain' (fun a b => a ≤ b)
      (st.last_test_time :: trace.map Prod.fst)) :
    List.Chain' (fun a b => a ≤ b)
      ((traceStates cfg st trace).map CacheState.last_test_time) := by
  induction trace generalizing st with
  | nil => simp [traceStates]
  | cons p rest ih =>
    obtain ⟨t, o⟩ := p
    rw [List.map_cons, List.chain'_cons] at hchain
    obtain ⟨h1, h2⟩ := hchain
    obtain ⟨hh, h3⟩ := List.chain'_cons'.mp h2
    have hst1 := get_metrics_state_time cfg st t o
    have hle : (get_metrics cfg st t o).state.last_test_time ≤ t := by
      rcases hst1 with hh1 | hh1
      · rw [hh1]; exact h1
      · rw [hh1]
    have hchain1 : List.Chain' (fun a b => a ≤ b)
        ((get_metrics cfg st t o).state.last_test_time :: rest.map Prod.fst) :=
      List.chain'_cons'.mpr ⟨fun y hy => le_trans hle (hh y hy), h3⟩
    have hfirst : st.last_test_time ≤ (get_metrics cfg st t o).state.last_test_time := by
      rcases hst1 with hh1 | hh1
      · rw [hh1]
      · rw [hh1]; exact h1
    obtain ⟨tl, htl⟩ := traceStates_shape cfg (get_metrics cfg st t o).state rest
    show List.Chain' (fun a b => a ≤ b)
      ((st :: traceStates cfg (get_metrics cfg st t o).state rest).map
        CacheState.last_test_time)
    rw [htl, List.map_cons, List.map_cons, List.chain'_cons]
    refine ⟨hfirst, ?_⟩
    rw [← List.map_cons, ← htl]
    exact ih (get_metrics cfg st t o).state hchain1

/-- C9 witness: a concrete two-call sequence with clock 1 then 2. -/
theorem C9_captured_at_monotone_witness :
    List.Chain' (fun a b => a ≤ b)
      ((traceStates ⟨60, none, 90⟩ ⟨0, none⟩
          [(1, .timeout), (2, .completed (some samplePayload))]).map
        CacheState.last_test_time) :=
  C9_captured_at_monotone ⟨60, none, 90⟩ ⟨0, none⟩
    [(1, .timeout), (2, .completed (some samplePayload))]
    (by norm_num [List.chain'_cons])

/-- C8: bytes_to_bits multiplies by 8 exactly (with the quoted sample
values), bits_to_megabits rounds the megabit value to two decimal
places with the quoted sample values, and the published download and
upload gauges carry the unrounded bits-per-second values. -/
theorem C8_unit_conversions :
    (∀ x : ℚ, bytes_to_bits x = x * 8) ∧
    bytes_to_bits 0 = 0 ∧ bytes_to_bits 1 = 8 ∧ bytes_to_bits 1.5 = 12 ∧
    bits_to_megabits 1000000 = 1 ∧ bits_to_megabits 0 = 0 ∧
    bits_to_megabits 500000 = 0.5 ∧
    (∀ m : Metrics, (update_prometheus_metrics m).download = m.download ∧
      (update_prometheus_metrics m).upload = m.upload) :=
  ⟨fun _ => rfl, by decide, by decide, by decide, by decide, by decide, by decide,
   fun _ => ⟨rfl, rfl⟩⟩

end Speedtest
